import Mathlib

/-!
Verification of the SSDP discovery module of the denonavr repository
(src/denonavr/ssdp.py).

The Python module is shallowly embedded.  Pure string processing and
control flow are translated directly.  The effectful parts (UDP sockets,
HTTP fetches) are parameterized by explicit behavior oracles:
`CycleBehavior` describes what the network does during one
broadcast-and-collect cycle, and `FetchOutcome` describes the outcome of
one HTTP GET of a description document.  Python exceptions are modelled
with `Except`.
-/

namespace DenonSSDP

/-- `SSDP_ADDR` from ssdp.py line 20. -/
def SSDP_ADDR : String := "239.255.255.250"

/-- `SSDP_PORT` from ssdp.py line 21. -/
def SSDP_PORT : Nat := 1900

/-- `SSDP_MX` from ssdp.py line 22. -/
def SSDP_MX : Int := 2

/-- `SSDP_ST_1` from ssdp.py line 24. -/
def SSDP_ST_1 : String := "ssdp:all"

/-- `SSDP_ST_2` from ssdp.py line 25. -/
def SSDP_ST_2 : String := "upnp:rootdevice"

/-- `SSDP_ST_3` from ssdp.py line 26. -/
def SSDP_ST_3 : String := "urn:schemas-upnp-org:device:MediaRenderer:1"

/-- `SSDP_ST_LIST` from ssdp.py line 28. -/
def SSDP_ST_LIST : List String := [SSDP_ST_1, SSDP_ST_2, SSDP_ST_3]

/-- `SCPD_XMLNS` from ssdp.py line 30 (braces written with escapes). -/
def SCPD_XMLNS : String := "\x7burn:schemas-upnp-org:device-1-0\x7d"

/-- `SCPD_DEVICE` from ssdp.py line 31. -/
def SCPD_DEVICE : String := SCPD_XMLNS ++ "device"

/-- `SCPD_DEVICETYPE` from ssdp.py line 32. -/
def SCPD_DEVICETYPE : String := SCPD_XMLNS ++ "deviceType"

/-- `SCPD_MANUFACTURER` from ssdp.py line 33. -/
def SCPD_MANUFACTURER : String := SCPD_XMLNS ++ "manufacturer"

/-- `SCPD_MODELNAME` from ssdp.py line 34. -/
def SCPD_MODELNAME : String := SCPD_XMLNS ++ "modelName"

/-- `SCPD_SERIALNUMBER` from ssdp.py line 35. -/
def SCPD_SERIALNUMBER : String := SCPD_XMLNS ++ "serialNumber"

/-- `SCPD_FRIENDLYNAME` from ssdp.py line 36. -/
def SCPD_FRIENDLYNAME : String := SCPD_XMLNS ++ "friendlyName"

/-- `SCPD_PRESENTATIONURL` from ssdp.py line 37. -/
def SCPD_PRESENTATIONURL : String := SCPD_XMLNS ++ "presentationURL"

/-- `DEVICETYPE_DENON` from ssdp.py line 39. -/
def DEVICETYPE_DENON : String := "urn:schemas-upnp-org:device:MediaRenderer:1"

/-- `SUPPORTED_MANUFACTURERS` from ssdp.py line 41. -/
def SUPPORTED_MANUFACTURERS : List String := ["Denon", "DENON", "Marantz"]

/-- Python `sep.join(list)`: elements of the list separated by `sep`. -/
def pyJoin (sep : String) : List String → String
  | [] => ""
  | [s] => s
  | s :: rest => s ++ sep ++ pyJoin sep rest

/-- `ssdp_request` from ssdp.py lines 44-52: the UTF-8 encoded M-SEARCH
request for a given search target and MX value. -/
def ssdp_request (ssdp_st : String) (ssdp_mx : Int) : ByteArray :=
  (pyJoin "\r\n" [
    "M-SEARCH * HTTP/1.1",
    "ST: " ++ ssdp_st,
    "MX: " ++ toString ssdp_mx,
    "MAN: \"ssdp:discover\"",
    "HOST: " ++ SSDP_ADDR ++ ":" ++ toString SSDP_PORT,
    "", ""]).toUTF8

/-- The character class of the regex `\s` (ASCII part, which is all the
inputs this module ever feeds it). -/
def isReSpace (c : Char) : Bool :=
  c = ' ' || c = '\t' || c = '\n' || c = '\r' || c = '\x0b' || c = '\x0c'

/-- One attempt of the regex `169.254.*.*` (ssdp.py line 102) at a fixed
start position.  In that pattern the two inner dots are metacharacters
matching any character except a newline, and the trailing `.*.*` always
matches, so an attempt succeeds iff the text at this position starts
with `169`, then any non-newline character, then `254`. -/
def matchAt169 : List Char → Bool
  | '1' :: '6' :: '9' :: c :: '2' :: '5' :: '4' :: _ => c != '\n'
  | _ => false

/-- `re.search("169.254.*.*", s)` as a Boolean (ssdp.py line 102): the
pattern is tried at every start position, left to right. -/
def search169 : List Char → Bool
  | [] => false
  | c :: rest => matchAt169 (c :: rest) || search169 rest

/-- The lazy part `.+?(?=\r)` of the LOCATION regex (ssdp.py line 134)
at a fixed position: it matches the shortest nonempty run of
non-newline characters that ends immediately before a `\r`; it fails
when a `\n` is reached or the text ends before any `\r`. -/
def lazyToCR : List Char → Option (List Char)
  | [] => none
  | c :: rest =>
    if c = '\n' then none
    else if rest.head? = some '\r' then some [c]
    else (lazyToCR rest).map fun t => c :: t

/-- One attempt of the regex `(?<=LOCATION:\s).+?(?=\r)` (ssdp.py
line 134) at a fixed start position of the matched text: the ten
characters ending at this position must be `LOCATION:` followed by one
`\s` character, and the matched text is given by `lazyToCR`.
The argument is the text starting at the beginning of the lookbehind. -/
def matchLocAt : List Char → Option (List Char)
  | 'L' :: 'O' :: 'C' :: 'A' :: 'T' :: 'I' :: 'O' :: 'N' :: ':' :: w :: rest =>
    if isReSpace w then lazyToCR rest else none
  | _ => none

/-- `re.search('(?<=LOCATION:\s).+?(?=\r)', text)` (ssdp.py line 134):
the leftmost successful attempt, or `none`. -/
def searchLoc : List Char → Option (List Char)
  | [] => none
  | c :: rest =>
    match matchLocAt (c :: rest) with
    | some m => some m
    | none => searchLoc rest

/-- One UDP datagram collected by `sock.recvfrom` (ssdp.py line 115):
the decoded payload together with the sender address. -/
structure RawResponse where
  payload : String
  sender : String
deriving Repr, DecidableEq

/-- ssdp.py lines 128-136: the LOCATION URL of every collected response
is extracted and the URLs are collected into a set.  The set is modelled
as a duplicate-free list in first-insertion order. -/
def extractUrls (res : List RawResponse) : List String :=
  res.foldl (fun urls entry =>
    match searchLoc entry.payload.toList with
    | some m =>
      let url := String.mk m
      if url ∈ urls then urls else urls ++ [url]
    | none => urls) []

/-- The network's behavior during one broadcast-and-collect cycle
(ssdp.py lines 106-117) for one local address and one search target:
whether `sock.sendto` raises an `OSError` (with its message), the
datagrams delivered before the receive loop terminates, and whether the
receive loop terminates with `socket.timeout` (`recvTimeout = true`) or
with some other socket error (`recvTimeout = false`). -/
structure CycleBehavior where
  sendErr : Option String
  datagrams : List RawResponse
  recvTimeout : Bool
deriving Repr, DecidableEq

/-- A socket exception escaping `send_ssdp_broadcast`. -/
inductive SockErr where
  | sendError (msg : String)
  | recvError
deriving Repr, DecidableEq

/-- ssdp.py lines 106-123, one iteration of the target loop: open a
socket, send the request, collect responses until the receive times
out, and break out of the target loop when the accumulated response
list is nonempty.  `res` is the response list accumulated so far (the
module-level `res` is never reset between cycles).  The result pairs
the Python outcome - an escaping exception, or the new response list
together with the break flag - with the number of times `sock.close()`
was called on this cycle's socket: the `except socket.timeout` handler
(line 117) closes it once, and the break path (line 122) closes it
again; no other path closes it. -/
def broadcastCycle (beh : CycleBehavior) (res : List RawResponse) :
    Except SockErr (List RawResponse × Bool) × Nat :=
  match beh.sendErr with
  | some msg => (.error (.sendError msg), 0)
  | none =>
    if beh.recvTimeout then
      if (res ++ beh.datagrams).isEmpty then (.ok (res ++ beh.datagrams, false), 1)
      else (.ok (res ++ beh.datagrams, true), 2)
    else (.error .recvError, 0)

/-- ssdp.py lines 104-123: the target loop for one local address.
`behs i` is the network behavior for the target with index `i`.  Besides
the accumulated responses, the list of target indices actually attempted
is returned as instrumentation (the trace of broadcasts performed). -/
def tryTargets (behs : Nat → CycleBehavior) (i : Nat) (sts : List String)
    (res : List RawResponse) : Except SockErr (List Nat × List RawResponse) :=
  match sts with
  | [] => .ok ([], res)
  | _st :: rest =>
    match (broadcastCycle (behs i) res).1 with
    | .error e => .error e
    | .ok (res2, brk) =>
      if brk then .ok ([i], res2)
      else
        match tryTargets behs (i + 1) rest res2 with
        | .error e => .error e
        | .ok (tr, r) => .ok (i :: tr, r)

/-- ssdp.py lines 100-125: the address loop.  Addresses matching the
`169.254.*.*` regex are skipped (line 102); the loop stops when the
accumulated response list is nonempty after an address (line 124).
`net ip i` is the network behavior when broadcasting from `ip` to the
target with index `i`.  The attempted (address, target index) pairs
are returned as instrumentation. -/
def tryIps (net : String → Nat → CycleBehavior) (ips : List String)
    (res : List RawResponse) :
    Except SockErr (List (String × Nat) × List RawResponse) :=
  match ips with
  | [] => .ok ([], res)
  | ip :: rest =>
    if search169 ip.toList then tryIps net rest res
    else
      match tryTargets (net ip) 0 SSDP_ST_LIST res with
      | .error e => .error e
      | .ok (tr, res2) =>
        if res2.isEmpty then
          match tryIps net rest res2 with
          | .error e => .error e
          | .ok (tr2, r) => .ok (tr.map (fun i => (ip, i)) ++ tr2, r)
        else .ok (tr.map (fun i => (ip, i)), res2)

/-- `send_ssdp_broadcast` from ssdp.py lines 90-139, parameterized by
the enumerated local addresses and the network oracle.  Returns the
trace of attempted (address, target index) broadcasts (instrumentation)
together with the extracted URL set. -/
def send_ssdp_broadcast (ips : List String) (net : String → Nat → CycleBehavior) :
    Except SockErr (List (String × Nat) × List String) :=
  match tryIps net ips [] with
  | .error e => .error e
  | .ok (tr, res) => .ok (tr, extractUrls res)

/-- A parsed XML element, as used through the `xml.etree.ElementTree`
API in ssdp.py: a tag, the element's text (Python `None` when the
element is empty), and the list of direct children in document order. -/
inductive XmlElement where
  | elem (tag : String) (text : Option String) (children : List XmlElement)

/-- The element's tag. -/
def XmlElement.tag : XmlElement → String
  | .elem t _ _ => t

/-- The element's `.text` attribute (`none` models Python `None`). -/
def XmlElement.text : XmlElement → Option String
  | .elem _ x _ => x

/-- The element's direct children. -/
def XmlElement.children : XmlElement → List XmlElement
  | .elem _ _ c => c

/-- `Element.find(tag)`: the first direct child with the given tag, or
`None`. -/
def findChild (e : XmlElement) (tag : String) : Option XmlElement :=
  e.children.find? (fun c => c.tag == tag)

/-- The Python exceptions caught at ssdp.py line 188. -/
inductive PyErr where
  | attributeError
  | valueError
  | parseError
deriving Repr, DecidableEq

/-- The access pattern `root.find(SCPD_DEVICE).find(tag).text` used
throughout ssdp.py lines 166-184: when either `find` returns `None`,
the attribute access on `None` raises `AttributeError`. -/
def findText (root : XmlElement) (tag : String) : Except PyErr (Option String) :=
  match findChild root SCPD_DEVICE with
  | none => .error .attributeError
  | some d =>
    match findChild d tag with
    | none => .error .attributeError
    | some c => .ok c.text

/-- Characters allowed in a URL scheme after the initial letter.
Modelled from the spec's external collaborator, the Python standard
library `urllib.parse` (`scheme_chars`). -/
def schemeChar (c : Char) : Bool :=
  c.isAlpha || c.isDigit || c = '+' || c = '-' || c = '.'

/-- Modelled from the Python standard library `urllib.parse.urlsplit`:
strip a leading `scheme:` when the text before the first colon is a
letter followed by scheme characters. -/
def dropScheme (s : List Char) : List Char :=
  match s.takeWhile (fun c => c != ':') with
  | [] => s
  | c :: rest =>
    if c.isAlpha && rest.all schemeChar && (c :: rest).length < s.length then
      s.drop ((c :: rest).length + 1)
    else s

/-- Modelled from `urllib.parse.urlsplit`: the netloc is present only
when the remaining text starts with `//`, and extends to the first of
`/`, `?`, `#`. -/
def takeNetloc (s : List Char) : Option (List Char) :=
  match s with
  | '/' :: '/' :: rest => some (rest.takeWhile (fun c => c != '/' && c != '?' && c != '#'))
  | _ => none

/-- The part of a netloc after its last `@` (userinfo stripped). -/
def afterLastAt (l : List Char) : List Char :=
  l.foldl (fun acc c => if c = '@' then [] else acc ++ [c]) []

/-- Modelled from `urllib.parse`: the `hostname` of a netloc - the text
after the last `@` and before the first `:`, lowercased, or `None` when
empty.  The model is restricted to bracket-free netlocs (no IPv6
literals), which covers every URL this module handles. -/
def hostOfNetloc (netloc : List Char) : Option String :=
  match (afterLastAt netloc).takeWhile (fun c => c != ':') with
  | [] => none
  | h => some (String.mk (h.map Char.toLower))

/-- Modelled from the spec's external collaborator `urllib.parse`:
`urlparse(url).hostname` as used at ssdp.py lines 174-176.  A `None`
argument is coerced by `urlparse` to the empty string (whose hostname
is `None`); it does not raise. -/
def urlparseHostname : Option String → Option String
  | none => none
  | some u =>
    match takeNetloc (dropScheme u.toList) with
    | none => none
    | some netloc => hostOfNetloc netloc

/-- `device["manufacturer"] in SUPPORTED_MANUFACTURERS` (ssdp.py
line 171); the text is `None` for an empty element, and `None` is not
in the list. -/
def manufacturerIn : Option String → Bool
  | some s => decide (s ∈ SUPPORTED_MANUFACTURERS)
  | none => false

/-- A Python dictionary with string keys and string-or-None values, as
an association list in key insertion order. -/
abbrev PyDict := List (String × Option String)

/-- The resolver's outcome on an HTTP 200 response: the device
dictionary, or the `return False` rejection signal. -/
inductive EvalResult where
  | record (d : PyDict)
  | rejected
deriving Repr, DecidableEq

/-- ssdp.py lines 165-187, the body of the `try` block after parsing:
read the manufacturer text (first `device["manufacturer"]` assignment,
line 166), test membership in `SUPPORTED_MANUFACTURERS` and - only when
that holds, Python `and` short-circuits - compare the deviceType text
with `DEVICETYPE_DENON`; on success extract the remaining fields into
the dictionary (which already holds the manufacturer), else
`return False`.  Element accesses can raise `AttributeError`, modelled
by the `Except` error case.  The `presentationURL` text is read twice
in the source (lines 174-178) with the same result; it is bound once
here. -/
def scpdBody (root : XmlElement) : Except PyErr EvalResult :=
  match findText root SCPD_MANUFACTURER with
  | .error e => .error e
  | .ok manufacturer =>
    if manufacturerIn manufacturer then
      match findText root SCPD_DEVICETYPE with
      | .error e => .error e
      | .ok dt =>
        if dt = some DEVICETYPE_DENON then
          match findText root SCPD_PRESENTATIONURL with
          | .error e => .error e
          | .ok purl =>
            match findText root SCPD_MODELNAME with
            | .error e => .error e
            | .ok mn =>
              match findText root SCPD_SERIALNUMBER with
              | .error e => .error e
              | .ok sn =>
                match findText root SCPD_FRIENDLYNAME with
                | .error e => .error e
                | .ok fn =>
                  .ok (.record [
                    ("manufacturer", manufacturer),
                    ("host", urlparseHostname purl),
                    ("presentationURL", purl),
                    ("modelName", mn),
                    ("serialNumber", sn),
                    ("friendlyName", fn)])
        else .ok .rejected
    else .ok .rejected

/-- ssdp.py lines 160-191, the HTTP 200 branch: parse the body
(`none` models text that `ET.fromstring` rejects with `ParseError`),
run the extraction, and catch `AttributeError`, `ValueError` and
`ET.ParseError`, turning them into `return False`. -/
def evaluateScpdOk (doc : Option XmlElement) : EvalResult :=
  match doc with
  | none => .rejected
  | some root =>
    match scpdBody root with
    | .ok r => r
    | .error _ => .rejected

/-- The outcome of `requests.get(url, timeout=2)` (ssdp.py line 151):
a connect timeout, another `RequestException` (with its message), or a
response with a status code and a body (`none` when the body is not
well-formed XML). -/
inductive FetchOutcome where
  | connectTimeout
  | requestError (msg : String)
  | response (status : Nat) (body : Option XmlElement)

/-- A `requests.exceptions.RequestException` escaping
`evaluate_scpd_xml`. -/
inductive ReqErr where
  | connectTimeout
  | requestError (msg : String)
deriving Repr, DecidableEq

/-- `evaluate_scpd_xml` from ssdp.py lines 142-195, parameterized by
the fetch outcome for its URL: a connect timeout is re-raised
(line 153), any other request failure is logged and re-raised
(line 158), a non-200 status is rejected (line 195), and a 200 response
is evaluated by `evaluateScpdOk`. -/
def evaluate_scpd_xml : FetchOutcome → Except ReqErr EvalResult
  | .connectTimeout => .error .connectTimeout
  | .requestError msg => .error (.requestError msg)
  | .response status body =>
    if status = 200 then .ok (evaluateScpdOk body) else .ok .rejected

/-- ssdp.py lines 78-87, the per-URL loop of
`identify_denonavr_receivers`: resolve each URL, skip it when a
`RequestException` propagates (`continue`) or when the result is the
falsy `False`; append the dictionary otherwise (the dictionary always
has six entries, hence is truthy). -/
def identifyFromUrls (fetch : String → FetchOutcome) (urls : List String) :
    List PyDict :=
  urls.foldl (fun receivers url =>
    match evaluate_scpd_xml (fetch url) with
    | .error _ => receivers
    | .ok .rejected => receivers
    | .ok (.record r) => receivers ++ [r]) []

/-- `identify_denonavr_receivers` from ssdp.py lines 67-87,
parameterized by the local addresses, the network oracle and the fetch
oracle: obtain the URL set from `send_ssdp_broadcast` (a socket error
there propagates - the function has no handler for it) and run the
per-URL loop. -/
def identify_denonavr_receivers (ips : List String)
    (net : String → Nat → CycleBehavior) (fetch : String → FetchOutcome) :
    Except SockErr (List PyDict) :=
  match send_ssdp_broadcast ips net with
  | .error e => .error e
  | .ok (_, urls) => .ok (identifyFromUrls fetch urls)

/-- A leaf element with the given tag and text. -/
def mkLeaf (tag : String) (text : String) : XmlElement := .elem tag (some text) []

/-- A fully populated Denon description document. -/
def docFull : XmlElement :=
  .elem "root" none [.elem SCPD_DEVICE none [
    mkLeaf SCPD_DEVICETYPE DEVICETYPE_DENON,
    mkLeaf SCPD_MANUFACTURER "Denon",
    mkLeaf SCPD_MODELNAME "AVR-X1000",
    mkLeaf SCPD_SERIALNUMBER "0001",
    mkLeaf SCPD_FRIENDLYNAME "Living Room AVR",
    mkLeaf SCPD_PRESENTATIONURL "http://192.168.1.50:60006/desc.xml"]]

/-- The dictionary `evaluate_scpd_xml` builds for `docFull`. -/
def recFull : PyDict :=
  [("manufacturer", some "Denon"),
   ("host", some "192.168.1.50"),
   ("presentationURL", some "http://192.168.1.50:60006/desc.xml"),
   ("modelName", some "AVR-X1000"),
   ("serialNumber", some "0001"),
   ("friendlyName", some "Living Room AVR")]

/-- A well-formed document whose manufacturer and deviceType both match
but which lacks the presentationURL (and the other extracted) elements. -/
def docPartial : XmlElement :=
  .elem "root" none [.elem SCPD_DEVICE none [
    mkLeaf SCPD_MANUFACTURER "Denon",
    mkLeaf SCPD_DEVICETYPE DEVICETYPE_DENON]]

/-- A document identical to `docFull` except for a lowercased
manufacturer. -/
def docLower : XmlElement :=
  .elem "root" none [.elem SCPD_DEVICE none [
    mkLeaf SCPD_MANUFACTURER "denon",
    mkLeaf SCPD_DEVICETYPE DEVICETYPE_DENON,
    mkLeaf SCPD_MODELNAME "AVR-X1000",
    mkLeaf SCPD_SERIALNUMBER "0001",
    mkLeaf SCPD_FRIENDLYNAME "Living Room AVR",
    mkLeaf SCPD_PRESENTATIONURL "http://192.168.1.50:60006/desc.xml"]]

/-- Like `docFull` but with an empty serialNumber element (text `None`)
and a relative presentationURL (which has no hostname). -/
def docEmptyBits : XmlElement :=
  .elem "root" none [.elem SCPD_DEVICE none [
    mkLeaf SCPD_MANUFACTURER "Denon",
    mkLeaf SCPD_DEVICETYPE DEVICETYPE_DENON,
    mkLeaf SCPD_MODELNAME "AVR-X1000",
    .elem SCPD_SERIALNUMBER none [],
    mkLeaf SCPD_FRIENDLYNAME "Living Room AVR",
    mkLeaf SCPD_PRESENTATIONURL "desc.xml"]]

/-- The dictionary `evaluate_scpd_xml` builds for `docEmptyBits`. -/
def recEmptyBits : PyDict :=
  [("manufacturer", some "Denon"),
   ("host", none),
   ("presentationURL", some "desc.xml"),
   ("modelName", some "AVR-X1000"),
   ("serialNumber", none),
   ("friendlyName", some "Living Room AVR")]

/-- A fetch oracle serving `docFull` for every URL. -/
def fetchFull : String → FetchOutcome := fun _ => .response 200 (some docFull)

/-- A fetch oracle serving `docEmptyBits` for every URL. -/
def fetchEmptyBits : String → FetchOutcome := fun _ => .response 200 (some docEmptyBits)

/-- An SSDP response datagram carrying a LOCATION header. -/
def respLoc : RawResponse :=
  { payload := "HTTP/1.1 200 OK\r\nCACHE-CONTROL: max-age=180\r\nLOCATION: http://10.0.0.5:60006/desc.xml\r\nST: upnp:rootdevice\r\n\r\n",
    sender := "10.0.0.5" }

/-- A cycle in which no device answers and the receive loop times out. -/
def quietB : CycleBehavior := { sendErr := none, datagrams := [], recvTimeout := true }

/-- A cycle in which one device answers and the receive loop then times
out. -/
def loudB : CycleBehavior := { sendErr := none, datagrams := [respLoc], recvTimeout := true }

/-- A network in which only the second address, on its first target,
gets an answer. -/
def netScenario : String → Nat → CycleBehavior :=
  fun ip i => if ip = "10.0.0.2" ∧ i = 0 then loudB else quietB

/-- A document with no `device` element at all. -/
def docNoDevice : XmlElement := .elem "root" none [mkLeaf "other" "x"]

/-- A document with a `device` element that lacks the `manufacturer`
child. -/
def docNoManufacturer : XmlElement :=
  .elem "root" none [.elem SCPD_DEVICE none [mkLeaf SCPD_DEVICETYPE DEVICETYPE_DENON]]

/-- Modelled from the spec: membership of a dotted IPv4 address string
in the link-local range 169.254.0.0/16, which for dotted notation means
starting with `169.254.`.  This is the spec's filtering criterion,
stated for comparison with the code's regex `169.254.*.*`. -/
def isLinkLocalDotted (s : String) : Bool :=
  "169.254.".toList.isPrefixOf s.toList

/-- The key sequence, in insertion order, of every dictionary
`evaluate_scpd_xml` returns. -/
def RECORD_KEYS : List String :=
  ["manufacturer", "host", "presentationURL", "modelName", "serialNumber", "friendlyName"]

/-- The byte list of a concatenation is the concatenation of the byte
lists. -/
theorem strDataAppend (a b : String) : (a ++ b).data = a.data ++ b.data := rfl

/-- The empty string has no characters. -/
theorem strDataEmpty : ("" : String).data = [] := rfl

/-- Strings with the same characters are equal. -/
theorem strExt {a b : String} (h : a.data = b.data) : a = b := by
  cases a; cases b; exact congrArg String.mk (by simpa using h)

/-- C8: for every search target `st` and integer `mx`, the constructed
SSDP request is the UTF-8 encoding of the request line
`M-SEARCH * HTTP/1.1` followed by the headers `ST: <st>`, `MX: <mx>`,
`MAN: "ssdp:discover"`, `HOST: 239.255.255.250:1900` in that order and
a final blank line, every line (the blank one included) terminated by
CRLF. -/
theorem c8_theorem (st : String) (mx : Int) :
    ssdp_request st mx =
      ("M-SEARCH * HTTP/1.1" ++ "\r\n" ++ ("ST: " ++ st) ++ "\r\n" ++
       ("MX: " ++ toString mx) ++ "\r\n" ++ "MAN: \"ssdp:discover\"" ++ "\r\n" ++
       "HOST: 239.255.255.250:1900" ++ "\r\n" ++ "" ++ "\r\n").toUTF8 := by
  unfold ssdp_request
  have hhost : ("HOST: " ++ SSDP_ADDR ++ ":" ++ toString SSDP_PORT) =
      "HOST: 239.255.255.250:1900" := by rfl
  rw [hhost]
  apply congrArg String.toUTF8
  apply strExt
  simp [pyJoin, strDataAppend, strDataEmpty, List.append_assoc]

/-- C8 witness: the theorem at the first search target and the fixed MX
value. -/
theorem c8_witness :
    ssdp_request "ssdp:all" 2 =
      ("M-SEARCH * HTTP/1.1" ++ "\r\n" ++ ("ST: " ++ "ssdp:all") ++ "\r\n" ++
       ("MX: " ++ toString (2 : Int)) ++ "\r\n" ++ "MAN: \"ssdp:discover\"" ++ "\r\n" ++
       "HOST: 239.255.255.250:1900" ++ "\r\n" ++ "" ++ "\r\n").toUTF8 :=
  c8_theorem "ssdp:all" 2

/-- C3 counterexample: a cycle whose `sendto` raises, and a cycle whose
receive loop ends in a non-timeout error, both leave the socket open
(zero `close` calls) while the exception propagates - the claim that
every exit path closes the socket is false on the code. -/
theorem c3_counterexample :
    (broadcastCycle ⟨some "Network is unreachable", [], true⟩ []).2 = 0 ∧
    (broadcastCycle ⟨some "Network is unreachable", [], true⟩ []).1 =
      .error (.sendError "Network is unreachable") ∧
    (broadcastCycle ⟨none, [respLoc], false⟩ []).2 = 0 ∧
    (broadcastCycle ⟨none, [respLoc], false⟩ []).1 = .error .recvError :=
  ⟨rfl, rfl, rfl, rfl⟩

/-- C3 (amended): a broadcast cycle closes its socket (at least once)
iff it exits through the receive-timeout path, i.e. the send succeeded
and the receive loop ended in `socket.timeout`; on a send failure or a
non-timeout receive failure the exception propagates and the socket is
never closed. -/
theorem c3_theorem (beh : CycleBehavior) (res : List RawResponse) :
    1 ≤ (broadcastCycle beh res).2 ↔ (beh.sendErr = none ∧ beh.recvTimeout = true) := by
  obtain ⟨se, dg, rt⟩ := beh
  cases se <;> cases rt <;> simp [broadcastCycle]
  split <;> simp

/-- C3 witness: the timeout exit of a quiet cycle does close the
socket. -/
theorem c3_witness : 1 ≤ (broadcastCycle ⟨none, [], true⟩ []).2 :=
  (c3_theorem ⟨none, [], true⟩ []).mpr ⟨rfl, rfl⟩

/-- C4 counterexample: `1.169.254.2` is not in 169.254.0.0/16, yet the
orchestrator discards it - with a responsive network it performs no
broadcast at all - because the regex `169.254.*.*` (dots are
wildcards, searched anywhere in the string) matches it.  The claim that
every address outside the range is retained is false on the code. -/
theorem c4_counterexample :
    isLinkLocalDotted "1.169.254.2" = false ∧
    search169 "1.169.254.2".toList = true ∧
    send_ssdp_broadcast ["1.169.254.2"] (fun _ _ => loudB) = .ok ([], []) :=
  ⟨by decide, by decide, rfl⟩

/-- C4 (amended): an enumerated address is discarded iff
`re.search("169.254.*.*", ip)` matches, i.e. iff the address contains
`169`, any character, then `254`: skipped addresses contribute no
broadcast; every dotted `169.254.*` address is discarded;
`169.254.3.4` is discarded and `192.168.1.10` is retained and used for
broadcasting; but some addresses outside 169.254.0.0/16 (such as
`1.169.254.2`) are discarded as well. -/
theorem c4_theorem :
    (∀ (ip : String) (rest : List String) (net : String → Nat → CycleBehavior)
       (res : List RawResponse), search169 ip.toList = true →
         tryIps net (ip :: rest) res = tryIps net rest res) ∧
    (∀ t : List Char,
      search169 ('1' :: '6' :: '9' :: '.' :: '2' :: '5' :: '4' :: '.' :: t) = true) ∧
    search169 "169.254.3.4".toList = true ∧
    search169 "192.168.1.10".toList = false ∧
    send_ssdp_broadcast ["192.168.1.10"] (fun _ _ => loudB) =
      .ok ([("192.168.1.10", 0)], ["http://10.0.0.5:60006/desc.xml"]) := by
  refine ⟨?_, ?_, by decide, by decide, rfl⟩
  · intro ip rest net res h
    have h2 : search169 ip.data = true := h
    simp [tryIps, h2]
  · intro t
    rfl

/-- C4 witness: the skip equation applied to the concrete discarded
address `169.254.3.4` on a responsive network. -/
theorem c4_witness :
    tryIps (fun _ _ => loudB) ["169.254.3.4"] [] = tryIps (fun _ _ => loudB) [] [] :=
  c4_theorem.1 "169.254.3.4" [] (fun _ _ => loudB) [] (by decide)

/-- The HTTP 200 branch of the resolver, at its boundary. -/
theorem evaluate_ok200 (body : Option XmlElement) :
    evaluate_scpd_xml (.response 200 body) = .ok (evaluateScpdOk body) := by
  simp [evaluate_scpd_xml]

/-- A caught error in the extraction body yields the rejection value. -/
theorem evalOk_of_body_error {root : XmlElement} {e : PyErr}
    (h : scpdBody root = .error e) : evaluateScpdOk (some root) = .rejected := by
  simp [evaluateScpdOk, h]

/-- C6: an HTTP 200 body that is not well-formed XML is rejected; a
document without a `device` element is rejected; a document whose
`device` lacks a `manufacturer` child is rejected; and more generally
any element-access or parse failure inside the extraction body is
caught and turned into rejection - it never escapes
`evaluate_scpd_xml`. -/
theorem c6_theorem :
    evaluate_scpd_xml (.response 200 none) = .ok .rejected ∧
    (∀ root : XmlElement, findChild root SCPD_DEVICE = none →
      evaluate_scpd_xml (.response 200 (some root)) = .ok .rejected) ∧
    (∀ root d : XmlElement, findChild root SCPD_DEVICE = some d →
      findChild d SCPD_MANUFACTURER = none →
      evaluate_scpd_xml (.response 200 (some root)) = .ok .rejected) ∧
    (∀ (root : XmlElement) (e : PyErr), scpdBody root = .error e →
      evaluate_scpd_xml (.response 200 (some root)) = .ok .rejected) := by
  refine ⟨rfl, ?_, ?_, ?_⟩
  · intro root h
    have hb : scpdBody root = .error .attributeError := by
      simp [scpdBody, findText, h]
    rw [evaluate_ok200, evalOk_of_body_error hb]
  · intro root d h1 h2
    have hb : scpdBody root = .error .attributeError := by
      simp [scpdBody, findText, h1, h2]
    rw [evaluate_ok200, evalOk_of_body_error hb]
  · intro root e h
    rw [evaluate_ok200, evalOk_of_body_error h]

/-- C6 witness: the theorem applied to a parse failure, a document with
no `device` element, and a document with no `manufacturer` child. -/
theorem c6_witness :
    evaluate_scpd_xml (.response 200 none) = .ok .rejected ∧
    evaluate_scpd_xml (.response 200 (some docNoDevice)) = .ok .rejected ∧
    evaluate_scpd_xml (.response 200 (some docNoManufacturer)) = .ok .rejected :=
  ⟨c6_theorem.1, c6_theorem.2.1 docNoDevice rfl,
    c6_theorem.2.2.1 docNoManufacturer (.elem SCPD_DEVICE none
      [mkLeaf SCPD_DEVICETYPE DEVICETYPE_DENON]) rfl rfl⟩

/-- C10: the supported manufacturer set is exactly the three strings
`Denon`, `DENON`, `Marantz`, and the membership test is by string
equality (case-sensitive): whenever the manufacturer text is any string
outside that list, the document is rejected, whatever its deviceType. -/
theorem c10_theorem :
    SUPPORTED_MANUFACTURERS = ["Denon", "DENON", "Marantz"] ∧
    (∀ (root : XmlElement) (m : String),
      findText root SCPD_MANUFACTURER = .ok (some m) →
      m ∉ SUPPORTED_MANUFACTURERS →
      evaluate_scpd_xml (.response 200 (some root)) = .ok .rejected) := by
  refine ⟨rfl, ?_⟩
  intro root m h hm
  have hin : manufacturerIn (some m) = false := by
    simp [manufacturerIn, hm]
  have hb : evaluateScpdOk (some root) = .rejected := by
    simp [evaluateScpdOk, scpdBody, h, hin]
  rw [evaluate_ok200, hb]

/-- C10 witness: a document with manufacturer `denon` (wrong case) and
a matching deviceType is rejected. -/
theorem c10_witness :
    evaluate_scpd_xml (.response 200 (some docLower)) = .ok .rejected :=
  c10_theorem.2 docLower "denon" rfl (by decide)



/-- The per-URL loop is a `filterMap`: exactly the dictionaries of the
URLs whose resolution succeeds, in order; propagated network errors and
rejections contribute nothing. -/
theorem identifyFromUrls_aux (fetch : String → FetchOutcome) :
    ∀ (urls : List String) (acc : List PyDict),
      urls.foldl (fun receivers url =>
        match evaluate_scpd_xml (fetch url) with
        | .error _ => receivers
        | .ok .rejected => receivers
        | .ok (.record r) => receivers ++ [r]) acc
      = acc ++ urls.filterMap (fun url =>
          match evaluate_scpd_xml (fetch url) with
          | .ok (.record r) => some r
          | _ => none) := by
  intro urls
  induction urls with
  | nil => intro acc; simp
  | cons u us ih =>
    intro acc
    simp only [List.foldl_cons, List.filterMap_cons]
    cases h : evaluate_scpd_xml (fetch u) with
    | error e => simp [h, ih]
    | ok r =>
      cases r with
      | rejected => simp [h, ih]
      | record d => simp [h, ih (acc ++ [d])]

/-- `identifyFromUrls` as a `filterMap` over the URL list. -/
theorem identifyFromUrls_eq (fetch : String → FetchOutcome) (urls : List String) :
    identifyFromUrls fetch urls = urls.filterMap (fun url =>
      match evaluate_scpd_xml (fetch url) with
      | .ok (.record r) => some r
      | _ => none) := by
  have h := identifyFromUrls_aux fetch urls []
  simpa [identifyFromUrls] using h

/-- A successful extraction body determines the 200-branch result. -/
theorem evalOk_of_body_ok {root : XmlElement} {res : EvalResult}
    (h : scpdBody root = .ok res) : evaluateScpdOk (some root) = res := by
  simp [evaluateScpdOk, h]

/-- The extraction body yields a record iff the manufacturer is a
supported string, the deviceType text is exactly the expected URI, and
the four remaining element accesses succeed. -/
theorem scpdBody_record_iff (root : XmlElement) :
    (∃ r, scpdBody root = .ok (.record r)) ↔
      ((∃ mo, findText root SCPD_MANUFACTURER = .ok mo ∧ manufacturerIn mo = true) ∧
       findText root SCPD_DEVICETYPE = .ok (some DEVICETYPE_DENON) ∧
       (∃ p, findText root SCPD_PRESENTATIONURL = .ok p) ∧
       (∃ m, findText root SCPD_MODELNAME = .ok m) ∧
       (∃ s, findText root SCPD_SERIALNUMBER = .ok s) ∧
       (∃ f, findText root SCPD_FRIENDLYNAME = .ok f)) := by
  constructor
  · rintro ⟨r, h⟩
    unfold scpdBody at h
    repeat' split at h
    all_goals simp_all
  · rintro ⟨⟨mo, hmo, hmi⟩, hdt, ⟨p, hp⟩, ⟨m, hm⟩, ⟨s, hs⟩, ⟨f, hf⟩⟩
    refine ⟨[("manufacturer", mo), ("host", urlparseHostname p), ("presentationURL", p),
      ("modelName", m), ("serialNumber", s), ("friendlyName", f)], ?_⟩
    simp [scpdBody, hmo, hmi, hdt, hp, hm, hs, hf]

/-- Every dictionary the extraction body builds has exactly the six
keys of `RECORD_KEYS`, in insertion order. -/
theorem scpdBody_record_keys {root : XmlElement} {r : PyDict}
    (h : scpdBody root = .ok (.record r)) : r.map Prod.fst = RECORD_KEYS := by
  obtain ⟨⟨mo, hmo, hmi⟩, hdt, ⟨p, hp⟩, ⟨m, hm⟩, ⟨s, hs⟩, ⟨f, hf⟩⟩ :=
    (scpdBody_record_iff root).mp ⟨r, h⟩
  have hb : scpdBody root = .ok (.record [("manufacturer", mo),
      ("host", urlparseHostname p), ("presentationURL", p), ("modelName", m),
      ("serialNumber", s), ("friendlyName", f)]) := by
    simp [scpdBody, hmo, hmi, hdt, hp, hm, hs, hf]
  rw [h] at hb
  simp only [Except.ok.injEq, EvalResult.record.injEq] at hb
  subst hb
  rfl

/-- Every dictionary `evaluate_scpd_xml` returns has exactly the six
keys of `RECORD_KEYS`, in insertion order. -/
theorem evaluate_record_keys {fo : FetchOutcome} {r : PyDict}
    (h : evaluate_scpd_xml fo = .ok (.record r)) : r.map Prod.fst = RECORD_KEYS := by
  cases fo with
  | connectTimeout => simp [evaluate_scpd_xml] at h
  | requestError m => simp [evaluate_scpd_xml] at h
  | response status body =>
    by_cases hs : status = 200
    · subst hs
      rw [evaluate_ok200] at h
      simp only [Except.ok.injEq] at h
      cases body with
      | none => simp [evaluateScpdOk] at h
      | some root =>
        cases hb : scpdBody root with
        | error e =>
          rw [evalOk_of_body_error hb] at h
          simp at h
        | ok res =>
          rw [evalOk_of_body_ok hb] at h
          cases res with
          | rejected => simp at h
          | record d =>
            simp only [EvalResult.record.injEq] at h
            subst h
            exact scpdBody_record_keys hb
    · have : evaluate_scpd_xml (.response status body) = .ok .rejected := by
        simp [evaluate_scpd_xml, hs]
      rw [this] at h
      simp at h

/-- The 200 branch yields a record iff the body does (errors are caught
into rejection). -/
theorem evaluate_record_iff (root : XmlElement) :
    (∃ r, evaluate_scpd_xml (.response 200 (some root)) = .ok (.record r)) ↔
      (∃ r, scpdBody root = .ok (.record r)) := by
  rw [evaluate_ok200]
  cases hb : scpdBody root with
  | error e => rw [evalOk_of_body_error hb]; simp [hb]
  | ok res => rw [evalOk_of_body_ok hb]; cases res <;> simp [hb]

/-- C1 counterexample: a well-formed HTTP 200 document whose
manufacturer is in the supported set and whose deviceType equals the
expected URI, yet the resolver rejects it (the presentationURL access
fails, the `AttributeError` is caught and `False` is returned) - so
the claimed iff is false on the code. -/
theorem c1_counterexample :
    findText docPartial SCPD_MANUFACTURER = .ok (some "Denon") ∧
    "Denon" ∈ SUPPORTED_MANUFACTURERS ∧
    findText docPartial SCPD_DEVICETYPE = .ok (some DEVICETYPE_DENON) ∧
    evaluate_scpd_xml (.response 200 (some docPartial)) = .ok .rejected :=
  ⟨rfl, by decide, rfl, rfl⟩

/-- C1 (amended): for every well-formed HTTP 200 document, the resolver
returns a DeviceRecord iff the manufacturer text is in the supported
set, the deviceType text exactly equals the expected URI, AND the four
extraction accesses (presentationURL, modelName, serialNumber,
friendlyName under the `device` element) succeed; in particular a
mismatch of either checked field always yields rejection. -/
theorem c1_theorem (root : XmlElement) :
    (∃ r, evaluate_scpd_xml (.response 200 (some root)) = .ok (.record r)) ↔
      ((∃ mo, findText root SCPD_MANUFACTURER = .ok mo ∧ manufacturerIn mo = true) ∧
       findText root SCPD_DEVICETYPE = .ok (some DEVICETYPE_DENON) ∧
       (∃ p, findText root SCPD_PRESENTATIONURL = .ok p) ∧
       (∃ m, findText root SCPD_MODELNAME = .ok m) ∧
       (∃ s, findText root SCPD_SERIALNUMBER = .ok s) ∧
       (∃ f, findText root SCPD_FRIENDLYNAME = .ok f)) :=
  (evaluate_record_iff root).trans (scpdBody_record_iff root)

/-- C1 witness: the iff applied to the fully populated document. -/
theorem c1_witness :
    ∃ r, evaluate_scpd_xml (.response 200 (some docFull)) = .ok (.record r) :=
  (c1_theorem docFull).mpr
    ⟨⟨some "Denon", rfl, by decide⟩, rfl, ⟨some "http://192.168.1.50:60006/desc.xml", rfl⟩,
      ⟨some "AVR-X1000", rfl⟩, ⟨some "0001", rfl⟩, ⟨some "Living Room AVR", rfl⟩⟩

/-- C2 counterexample: a returned mapping whose key sequence is the six
keys including `manufacturer` - not the claimed five - and whose
`serialNumber` value is Python `None`, not a string (the element is
empty), with `host` also `None` (relative presentationURL). -/
theorem c2_counterexample :
    identifyFromUrls fetchEmptyBits ["http://192.168.1.20:8080/desc.xml"] = [recEmptyBits] ∧
    recEmptyBits.map Prod.fst = RECORD_KEYS ∧
    "manufacturer" ∈ recEmptyBits.map Prod.fst ∧
    "manufacturer" ∉ ["host", "modelName", "friendlyName", "presentationURL", "serialNumber"] ∧
    ("serialNumber", (none : Option String)) ∈ recEmptyBits ∧
    ("host", (none : Option String)) ∈ recEmptyBits :=
  ⟨rfl, rfl, by decide, by decide, by decide, by decide⟩

/-- C2 (amended): every element of the sequence returned by the public
entry point's per-URL loop is a mapping whose fields are exactly the
six keys `manufacturer`, `host`, `presentationURL`, `modelName`,
`serialNumber`, `friendlyName`, in that insertion order; each value is
the extracted element text (for `host`, the hostname parsed from the
presentationURL), which may be `None` rather than a string when the
element is empty or the URL has no host. -/
theorem c2_theorem (fetch : String → FetchOutcome) (urls : List String) (r : PyDict)
    (h : r ∈ identifyFromUrls fetch urls) : r.map Prod.fst = RECORD_KEYS := by
  rw [identifyFromUrls_eq] at h
  obtain ⟨u, _, hpick⟩ := List.mem_filterMap.mp h
  cases hev : evaluate_scpd_xml (fetch u) with
  | error e => rw [hev] at hpick; simp at hpick
  | ok res =>
    rw [hev] at hpick
    cases res with
    | rejected => simp at hpick
    | record d =>
      simp only [Option.some.injEq] at hpick
      subst hpick
      exact evaluate_record_keys hev

/-- C2 witness: the key-sequence theorem at the fully populated
document. -/
theorem c2_witness : recFull.map Prod.fst = RECORD_KEYS :=
  c2_theorem fetchFull ["http://192.168.1.50:60006/desc.xml"] recFull (by decide)

/-- C7: the facade's per-URL loop returns exactly the records of the
URLs whose resolution succeeds - a URL whose resolution raises a
network error or returns rejection is skipped and the loop continues -
it never raises, the empty URL set gives the empty sequence, and for
every URL set the orchestrator produces, the composed entry point
returns exactly the loop's output. -/
theorem c7_theorem :
    (∀ (fetch : String → FetchOutcome) (urls : List String),
      identifyFromUrls fetch urls = urls.filterMap (fun url =>
        match evaluate_scpd_xml (fetch url) with
        | .ok (.record r) => some r
        | _ => none)) ∧
    (∀ fetch : String → FetchOutcome, identifyFromUrls fetch [] = []) ∧
    (∀ (ips : List String) (net : String → Nat → CycleBehavior)
       (fetch : String → FetchOutcome) (tr : List (String × Nat)) (urls : List String),
      send_ssdp_broadcast ips net = .ok (tr, urls) →
      identify_denonavr_receivers ips net fetch = .ok (identifyFromUrls fetch urls)) := by
  refine ⟨identifyFromUrls_eq, fun fetch => rfl, ?_⟩
  intro ips net fetch tr urls h
  simp [identify_denonavr_receivers, h]

/-- C7 witness: the composition equation at a concrete discovery run. -/
theorem c7_witness :
    identify_denonavr_receivers ["192.168.1.10"] (fun _ _ => loudB) fetchFull =
      .ok (identifyFromUrls fetchFull ["http://10.0.0.5:60006/desc.xml"]) :=
  c7_theorem.2.2 ["192.168.1.10"] (fun _ _ => loudB) fetchFull
    [("192.168.1.10", 0)] ["http://10.0.0.5:60006/desc.xml"] rfl

/-- The one-step unfolding of `lazyToCR`. -/
theorem lazyToCR_cons (c : Char) (rest : List Char) :
    lazyToCR (c :: rest) =
      if c = '\n' then none
      else if rest.head? = some '\r' then some [c]
      else (lazyToCR rest).map fun t => c :: t := rfl

/-- The lazy `.+?(?=\r)` match over a CR-free, LF-free nonempty text
followed by a carriage return yields exactly that text. -/
theorem lazyToCR_append (url : List Char) :
    ∀ post : List Char, url ≠ [] → (∀ c ∈ url, c ≠ '\r' ∧ c ≠ '\n') →
      lazyToCR (url ++ '\r' :: post) = some url := by
  induction url with
  | nil => intro post h _; exact absurd rfl h
  | cons c u ih =>
    intro post _ hcs
    have hc : c ≠ '\n' := (hcs c (by simp)).2
    cases u with
    | nil => simp [lazyToCR, hc]
    | cons d u2 =>
      have hd : d ≠ '\r' := (hcs d (by simp)).1
      have hrec := ih post (by simp) (fun x hx => hcs x (by simp [hx]))
      rw [List.cons_append] at hrec
      show lazyToCR (c :: ((d :: u2) ++ '\r' :: post)) = some (c :: d :: u2)
      rw [List.cons_append, lazyToCR_cons, if_neg hc, List.head?_cons,
        if_neg (by simp [hd]), hrec]
      rfl

/-- If no attempt of the LOCATION pattern succeeds at any position
inside a prefix, the search over the whole text equals the search over
the rest. -/
theorem searchLoc_append (pre : List Char) : ∀ rest : List Char,
    (∀ n, n < pre.length → matchLocAt ((pre ++ rest).drop n) = none) →
    searchLoc (pre ++ rest) = searchLoc rest := by
  induction pre with
  | nil => intro rest _; rfl
  | cons c p ih =>
    intro rest h
    have h0 : matchLocAt (c :: (p ++ rest)) = none := by
      have := h 0 (by simp)
      simpa using this
    have hrec : ∀ n, n < p.length → matchLocAt ((p ++ rest).drop n) = none := by
      intro n hn
      have := h (n + 1) (by simp [hn])
      simpa using this
    calc searchLoc ((c :: p) ++ rest) = searchLoc (p ++ rest) := by
          simp [searchLoc, h0]
      _ = searchLoc rest := ih rest hrec

/-- C9: extraction of the LOCATION header value.  (1) For every decoded
response text consisting of a prefix with no LOCATION match, the line
`LOCATION: <url>\r\n` and a remainder, the regex search yields exactly
`<url>` - no leading whitespace, no trailing carriage return.  (2) The
spec's concrete response text yields exactly
`http://10.0.0.5:60006/desc.xml`, and the extraction step turns that
response into exactly that URL.  (3) The match is case-sensitive:
`location:` is not matched.  (4) A response with no parseable LOCATION
header contributes no URL. -/
theorem c9_theorem :
    (∀ (pre url post : List Char),
      url ≠ [] → (∀ c ∈ url, c ≠ '\r' ∧ c ≠ '\n') →
      (∀ n, n < pre.length → matchLocAt ((pre ++
        ('L' :: 'O' :: 'C' :: 'A' :: 'T' :: 'I' :: 'O' :: 'N' :: ':' :: ' ' ::
          (url ++ '\r' :: '\n' :: post))).drop n) = none) →
      searchLoc (pre ++
        ('L' :: 'O' :: 'C' :: 'A' :: 'T' :: 'I' :: 'O' :: 'N' :: ':' :: ' ' ::
          (url ++ '\r' :: '\n' :: post))) = some url) ∧
    searchLoc respLoc.payload.toList = some "http://10.0.0.5:60006/desc.xml".toList ∧
    extractUrls [respLoc] = ["http://10.0.0.5:60006/desc.xml"] ∧
    searchLoc ("location: http://10.0.0.5:60006/desc.xml\r\n").toList = none ∧
    (∀ r : RawResponse, searchLoc r.payload.toList = none → extractUrls [r] = []) := by
  refine ⟨?_, by decide, rfl, by decide, ?_⟩
  · intro pre url post hne hok h
    rw [searchLoc_append pre _ h]
    have hlz : lazyToCR (url ++ '\r' :: '\n' :: post) = some url :=
      lazyToCR_append url ('\n' :: post) hne hok
    simp [searchLoc, matchLocAt, isReSpace, hlz]
  · intro r h
    have h2 : searchLoc r.payload.data = none := h
    simp [extractUrls, h2]

/-- C9 witness: the general extraction statement applied to a concrete
prefix, URL and remainder. -/
theorem c9_witness :
    searchLoc ("OK\r\n".toList ++
      ('L' :: 'O' :: 'C' :: 'A' :: 'T' :: 'I' :: 'O' :: 'N' :: ':' :: ' ' ::
        ("http://10.0.0.5:60006/desc.xml".toList ++ '\r' :: '\n' :: []))) =
      some "http://10.0.0.5:60006/desc.xml".toList :=
  c9_theorem.1 "OK\r\n".toList "http://10.0.0.5:60006/desc.xml".toList []
    (by decide) (by decide) (by decide)

/-- C5: the short-circuit policy.  For every address list starting with
two usable (non-link-local) addresses `a` then `b`, if broadcasting
from `a` yields no response on any of the three targets (each cycle
ending in a clean timeout) and broadcasting from `b` yields at least
one response on the first target, then the whole discovery performs
exactly the broadcasts (a,0), (a,1), (a,2), (b,0) - the second and
third targets are never attempted for `b`, no later address is
attempted - and the kept responses are exactly those of that first
successful target. -/
theorem c5_theorem (a b : String) (rest : List String)
    (net : String → Nat → CycleBehavior) (d : RawResponse) (ds : List RawResponse)
    (ha : search169 a.toList = false) (hb : search169 b.toList = false)
    (ha0 : net a 0 = ⟨none, [], true⟩) (ha1 : net a 1 = ⟨none, [], true⟩)
    (ha2 : net a 2 = ⟨none, [], true⟩) (hb0 : net b 0 = ⟨none, d :: ds, true⟩) :
    send_ssdp_broadcast (a :: b :: rest) net =
      .ok ([(a, 0), (a, 1), (a, 2), (b, 0)], extractUrls (d :: ds)) := by
  have hA : tryTargets (net a) 0 SSDP_ST_LIST [] = .ok ([0, 1, 2], []) := by
    simp [tryTargets, SSDP_ST_LIST, broadcastCycle, ha0, ha1, ha2]
  have hB : tryTargets (net b) 0 SSDP_ST_LIST [] = .ok ([0], d :: ds) := by
    simp [tryTargets, SSDP_ST_LIST, broadcastCycle, hb0]
  have ha' : search169 a.data = false := ha
  have hb' : search169 b.data = false := hb
  unfold send_ssdp_broadcast
  simp [tryIps, ha', hb', hA, hB]

/-- C5 witness: the short-circuit theorem at a concrete two-address
scenario. -/
theorem c5_witness :
    send_ssdp_broadcast ["192.168.1.10", "10.0.0.2", "10.0.0.9"] netScenario =
      .ok ([("192.168.1.10", 0), ("192.168.1.10", 1), ("192.168.1.10", 2), ("10.0.0.2", 0)],
        extractUrls [respLoc]) :=
  c5_theorem "192.168.1.10" "10.0.0.2" ["10.0.0.9"] netScenario respLoc []
    (by decide) (by decide) (by decide) (by decide) (by decide) (by decide)

end DenonSSDP
